import Mathlib

/-!
Verification of the client-side blackjack UI logic (static/script.js).

The JavaScript source is shallowly embedded: the pure aggregation and
classification logic (card extraction in displayGameTable, outcome
classification in displayResult, win-rate formatting in
displayTournamentResults, the numHands default in runTournament, agent
selection, and tab switching) becomes Lean functions; the stateful
controller bodies (playHand, runTournament) become explicit
state-transition functions from a pre-state and a fetch outcome to a
post-state plus the list of alert notifications raised during the call.
-/

namespace BlackjackUI

/-- The actor of a trace step: the actor field of a Step object. -/
inductive Actor where
  | PLAYER
  | DEALER
  | SYSTEM
deriving DecidableEq, Repr

/-- One atomic game event, mirroring the Step objects consumed by
displayGameTable and displayTrace: the card field is none when the
JSON field is null. -/
structure Step where
  actor : Actor
  action : String
  card : Option Nat
  player_total : Int
  dealer_total : Int
  note : Option String
deriving DecidableEq, Repr

/-- One iteration of the steps.forEach loop in displayGameTable
(script.js lines 169-177): if the card is non-null it is pushed onto the
player list when the actor is PLAYER, onto the dealer list when the
actor is SYSTEM or DEALER. -/
def extractCardsStep (acc : List Nat × List Nat) (step : Step) : List Nat × List Nat :=
  match step.card with
  | some c =>
      if step.actor = Actor.PLAYER then (acc.1 ++ [c], acc.2)
      else if step.actor = Actor.SYSTEM ∨ step.actor = Actor.DEALER then (acc.1, acc.2 ++ [c])
      else acc
  | none => acc

/-- The card extraction of displayGameTable: starting from two empty
arrays, fold the forEach body over the steps in order; returns
(playerCards, dealerCards). -/
def extractCards (steps : List Step) : List Nat × List Nat :=
  steps.foldl extractCardsStep ([], [])

/-- Generalisation of the forEach loop to an arbitrary accumulator: the
final arrays are the initial arrays extended, in step order, with the
non-null cards of PLAYER steps and of SYSTEM/DEALER steps respectively. -/
theorem extractCards_foldl (steps : List Step) (p d : List Nat) :
    steps.foldl extractCardsStep (p, d) =
      (p ++ steps.filterMap (fun s => if s.actor = Actor.PLAYER then s.card else none),
       d ++ steps.filterMap (fun s =>
         if s.actor = Actor.SYSTEM ∨ s.actor = Actor.DEALER then s.card else none)) := by
  induction steps generalizing p d with
  | nil => simp
  | cons s rest ih =>
      rw [List.foldl_cons]
      obtain ⟨ac, _, cd, _, _, _⟩ := s
      cases cd <;> cases ac <;>
        simp [extractCardsStep, ih, List.filterMap_cons]

theorem length_filterMap_eq_countP {α β : Type} (f : α → Option β) (l : List α) :
    (l.filterMap f).length = l.countP (fun a => (f a).isSome) := by
  induction l with
  | nil => rfl
  | cons a l ih =>
      cases h : f a <;>
        simp [List.filterMap_cons, List.countP_cons, h, ih]

/-- C1: for every ordered step sequence, the reconstructed playerCards
list is exactly the in-order sequence of non-null cards of PLAYER steps
and the dealerCards list is exactly the in-order sequence of non-null
cards of SYSTEM/DEALER steps (so relative order is preserved and steps
without a card contribute nothing); consequently the lengths equal the
counts of PLAYER steps with a non-null card and of DEALER-or-SYSTEM
steps with a non-null card. -/
theorem reconstruct_cards_C1 (steps : List Step) :
    (extractCards steps).1 =
      steps.filterMap (fun s => if s.actor = Actor.PLAYER then s.card else none)
  ∧ (extractCards steps).2 =
      steps.filterMap (fun s =>
        if s.actor = Actor.SYSTEM ∨ s.actor = Actor.DEALER then s.card else none)
  ∧ (extractCards steps).1.length =
      steps.countP (fun s => decide (s.actor = Actor.PLAYER) && s.card.isSome)
  ∧ (extractCards steps).2.length =
      steps.countP (fun s =>
        (decide (s.actor = Actor.DEALER) || decide (s.actor = Actor.SYSTEM)) && s.card.isSome) := by
  have hfold := extractCards_foldl steps [] []
  have h1 : (extractCards steps).1 =
      steps.filterMap (fun s => if s.actor = Actor.PLAYER then s.card else none) := by
    rw [extractCards, hfold]; simp
  have h2 : (extractCards steps).2 =
      steps.filterMap (fun s =>
        if s.actor = Actor.SYSTEM ∨ s.actor = Actor.DEALER then s.card else none) := by
    rw [extractCards, hfold]; simp
  refine ⟨h1, h2, ?_, ?_⟩
  · rw [h1, length_filterMap_eq_countP]
    apply List.countP_congr
    intro s _
    by_cases hA : s.actor = Actor.PLAYER <;> cases hc : s.card <;> simp [hA, hc]
  · rw [h2, length_filterMap_eq_countP]
    apply List.countP_congr
    intro s _
    by_cases hS : s.actor = Actor.SYSTEM <;> by_cases hD : s.actor = Actor.DEALER <;>
      cases hc : s.card <;> simp [hS, hD, hc]

/-- The summary object of a play-hand response, mirroring the fields
displayResult and displayGameTable read. -/
structure HandSummary where
  agent : String
  dealer_upcard : Nat
  player_total : Int
  dealer_total : Int
  player_bust : Bool
  dealer_bust : Bool
deriving DecidableEq, Repr

/-- The outcome classification of displayResult (script.js lines
232-262): from the payoff (an Option so that a JSON null payoff is
representable as none) and the summary bust flags, compute the visual
class put on the result box and the user-facing result text. The
structure mirrors the source: strict equality tests against 1 and -1 in
order, with the final else producing the push rendering. -/
def displayResultText (payoff : Option Int) (summary : HandSummary) : String × String :=
  if payoff = some 1 then
    ("win", "🎉 Player Wins!")
  else if payoff = some (-1) then
    ("loss",
      if summary.player_bust then "💥 Player Busts - Dealer Wins!"
      else if summary.dealer_bust then "🎯 Dealer Busts - Player Wins!"
      else "😞 Dealer Wins!")
  else
    ("push", "🤝 Push (Tie)!")

/-- C2 counterexample: at payoff -1 with player_bust false and
dealer_bust true, the code does not produce the plain dealer-wins
message the claim requires regardless of dealer_bust; it produces a
distinct dealer-busts message instead. -/
theorem outcome_precedence_C2_counterexample :
    (displayResultText (some (-1))
      { agent := "EV", dealer_upcard := 10, player_total := 20,
        dealer_total := 22, player_bust := false, dealer_bust := true }).2
      ≠ "😞 Dealer Wins!"
  ∧ (displayResultText (some (-1))
      { agent := "EV", dealer_upcard := 10, player_total := 20,
        dealer_total := 22, player_bust := false, dealer_bust := true }).2
      = "🎯 Dealer Busts - Player Wins!" := by
  constructor
  · decide
  · decide

/-- C2 amended: payoff 1 yields the WIN class and message regardless of
bust flags; payoff -1 with player_bust yields the player-busts loss;
payoff -1 without player_bust but with dealer_bust yields a distinct
dealer-busts message (still with the loss class), not the plain
dealer-wins message; payoff -1 with neither flag yields the plain
dealer-wins loss; payoff 0 yields the PUSH class and message; each of
these five branches maps to exactly one message and one visual class. -/
theorem outcome_precedence_C2_amended (s : HandSummary) :
    displayResultText (some 1) s = ("win", "🎉 Player Wins!")
  ∧ (s.player_bust = true →
      displayResultText (some (-1)) s = ("loss", "💥 Player Busts - Dealer Wins!"))
  ∧ (s.player_bust = false → s.dealer_bust = true →
      displayResultText (some (-1)) s = ("loss", "🎯 Dealer Busts - Player Wins!"))
  ∧ (s.player_bust = false → s.dealer_bust = false →
      displayResultText (some (-1)) s = ("loss", "😞 Dealer Wins!"))
  ∧ displayResultText (some 0) s = ("push", "🤝 Push (Tie)!") := by
  refine ⟨?_, ?_, ?_, ?_, ?_⟩ <;>
    first
      | (intro h1 h2; simp [displayResultText, h1, h2])
      | (intro h1; simp [displayResultText, h1])
      | simp [displayResultText]

/-- Witness for C2 amended at a concrete summary with player_bust false
and dealer_bust true. -/
theorem outcome_precedence_C2_witness :
    displayResultText (some (-1))
      { agent := "EV", dealer_upcard := 10, player_total := 20,
        dealer_total := 22, player_bust := false, dealer_bust := true }
      = ("loss", "🎯 Dealer Busts - Player Wins!") :=
  (outcome_precedence_C2_amended
    { agent := "EV", dealer_upcard := 10, player_total := 20,
      dealer_total := 22, player_bust := false, dealer_bust := true }).2.2.1 rfl rfl

/-- C9: the classification is total and deterministic on the valid
domain: for payoff in {1, 0, -1} the result depends only on the payoff
and the two bust flags (two summaries agreeing on the flags classify
identically), the visual class is always one of win, loss, push, and
the message is always one of the five fixed strings. -/
theorem classifier_total_C9 (p : Option Int) (s t : HandSummary)
    (hp : p = some 1 ∨ p = some 0 ∨ p = some (-1))
    (hb : s.player_bust = t.player_bust) (hd : s.dealer_bust = t.dealer_bust) :
    displayResultText p s = displayResultText p t
  ∧ ((displayResultText p s).1 = "win" ∨ (displayResultText p s).1 = "loss"
      ∨ (displayResultText p s).1 = "push")
  ∧ ((displayResultText p s).2 = "🎉 Player Wins!"
      ∨ (displayResultText p s).2 = "💥 Player Busts - Dealer Wins!"
      ∨ (displayResultText p s).2 = "🎯 Dealer Busts - Player Wins!"
      ∨ (displayResultText p s).2 = "😞 Dealer Wins!"
      ∨ (displayResultText p s).2 = "🤝 Push (Tie)!") := by
  have heq : displayResultText p s = displayResultText p t := by
    simp only [displayResultText, hb, hd]
  refine ⟨heq, ?_, ?_⟩ <;>
    rcases hp with hp | hp | hp <;> subst hp <;>
      cases hpb : s.player_bust <;> cases hdb : s.dealer_bust <;>
        simp [displayResultText, hpb, hdb]

/-- Witness for C9 at payoff 1 and a concrete pair of summaries. -/
theorem classifier_total_C9_witness :
    displayResultText (some 1)
        { agent := "EV", dealer_upcard := 5, player_total := 20,
          dealer_total := 18, player_bust := false, dealer_bust := false }
      = displayResultText (some 1)
        { agent := "NAIVE", dealer_upcard := 9, player_total := 19,
          dealer_total := 17, player_bust := false, dealer_bust := false } :=
  (classifier_total_C9 (some 1)
    { agent := "EV", dealer_upcard := 5, player_total := 20,
      dealer_total := 18, player_bust := false, dealer_bust := false }
    { agent := "NAIVE", dealer_upcard := 9, player_total := 19,
      dealer_total := 17, player_bust := false, dealer_bust := false }
    (Or.inl rfl) rfl rfl).1

/-- C10: every payoff other than 1 and -1, including out-of-domain
values such as 2 and the null payoff, falls through to the final else
and yields exactly the push class and message; there is no
unknown-outcome default. -/
theorem push_default_C10 (p : Option Int) (s : HandSummary)
    (h1 : p ≠ some 1) (h2 : p ≠ some (-1)) :
    displayResultText p s = ("push", "🤝 Push (Tie)!") := by
  simp [displayResultText, h1, h2]

/-- Witness for C10 at the out-of-domain payoff 2. -/
theorem push_default_C10_witness :
    displayResultText (some 2)
      { agent := "EV", dealer_upcard := 5, player_total := 20,
        dealer_total := 18, player_bust := false, dealer_bust := false }
      = ("push", "🤝 Push (Tie)!") :=
  push_default_C10 (some 2)
    { agent := "EV", dealer_upcard := 5, player_total := 20,
      dealer_total := 18, player_bust := false, dealer_bust := false }
    (by decide) (by decide)

/-- A JavaScript floating-point value as it arises in the win-rate
computation: NaN, positive Infinity, or an exact non-negative rational
written as numerator over a positive denominator. -/
inductive JsFloat where
  | nan
  | inf
  | val (num : Nat) (den : Nat)
deriving DecidableEq, Repr

/-- The expression stats.wins / stats.hands * 100 of
displayTournamentResults (script.js line 335) under JavaScript number
semantics for non-negative integer inputs: dividing by zero yields NaN
when the numerator is zero and Infinity otherwise; otherwise the exact
ratio scaled by 100. -/
def jsWinRate (wins hands : Nat) : JsFloat :=
  if hands = 0 then
    (if wins = 0 then JsFloat.nan else JsFloat.inf)
  else
    JsFloat.val (wins * 100) hands

/-- JavaScript Number.prototype.toFixed(1) on the values reachable
here: NaN prints "NaN", Infinity prints "Infinity", and a non-negative
finite value is rounded to the nearest tenth (ties upward) and printed
with exactly one digit after the decimal point. -/
def toFixed1 : JsFloat → String
  | JsFloat.nan => "NaN"
  | JsFloat.inf => "Infinity"
  | JsFloat.val n d =>
      let tenths := (n * 10 * 2 + d) / (2 * d)
      toString (tenths / 10) ++ "." ++ toString (tenths % 10)

/-- The win-rate cell rendered by displayTournamentResults: the
toFixed(1) string followed by a percent sign. -/
def winRateString (wins hands : Nat) : String :=
  toFixed1 (jsWinRate wins hands) ++ "%"

/-- C3: for stats with hands 1000 and wins 423 the win rate renders as
"42.3%" as the claim says, but for hands 0 and wins 0 the code performs
0 / 0, getting NaN, and renders exactly the string "NaN%" that the
claim forbids: there is no fallback in the code. -/
theorem win_rate_C3_bug :
    winRateString 423 1000 = "42.3%"
  ∧ winRateString 0 0 = "NaN%" := by
  constructor
  · rfl
  · rfl

/-- The payload of a successful play-hand response: the fields
displayHand consumes. -/
structure HandPayload where
  summary : HandSummary
  steps : List Step
  payoff : Option Int
deriving Repr

/-- The possible outcomes of the awaited fetch plus JSON parse inside
playHand: either the request or the parse threw (a transport error,
carrying the thrown message), or a parsed response with its success
flag, error string and payload fields. -/
inductive HandFetch where
  | transportError (msg : String)
  | response (success : Bool) (error : String) (payload : HandPayload)
deriving Repr

/-- The UI state playHand touches: the play button disabled flag, the
display style of the loading indicator, of the welcome message and of
the game content area, and the committed rendering of the last
successful hand (none while the initial welcome state is showing). -/
structure HandUI where
  btnDisabled : Bool
  loadingDisplay : String
  welcomeDisplay : String
  gameContentDisplay : String
  rendered : Option HandPayload
deriving Repr

/-- The state just after playHand runs its prologue (script.js lines
104-105): the button is disabled and the loading indicator shown before
the fetch is awaited. -/
def playHandPending (pre : HandUI) : HandUI :=
  { pre with btnDisabled := true, loadingDisplay := "block" }

/-- The rest of playHand from the fetch outcome on (script.js lines
107-135): on success the hand is rendered and the welcome message
replaced by the game content; on a response with success false an alert
with the prefixed error string is raised; on a transport error the
fixed alert "Failed to play hand" is raised; the finally block then
unconditionally re-enables the button and hides the loading indicator.
Returns the post-state and the list of alerts raised during the call. -/
def playHandSettle (st : HandUI) (result : HandFetch) : HandUI × List String :=
  let step :=
    match result with
    | HandFetch.response true _ payload =>
        ({ st with rendered := some payload,
                   welcomeDisplay := "none",
                   gameContentDisplay := "block" }, ([] : List String))
    | HandFetch.response false err _ =>
        (st, ["Error playing hand: " ++ err])
    | HandFetch.transportError _ =>
        (st, ["Failed to play hand"])
  ({ step.1 with btnDisabled := false, loadingDisplay := "none" }, step.2)

/-- The whole playHand control flow as a function of the pre-state and
the fetch outcome. -/
def playHand (pre : HandUI) (result : HandFetch) : HandUI × List String :=
  playHandSettle (playHandPending pre) result

/-- A concrete initial hand-tab state: welcome message showing, game
content hidden, nothing rendered. -/
def initialHandUI : HandUI :=
  { btnDisabled := false, loadingDisplay := "none", welcomeDisplay := "block",
    gameContentDisplay := "none", rendered := none }

/-- C4 counterexample: on a transport error whose underlying message is
"network down", the single alert raised is the fixed string "Failed to
play hand", not the error string verbatim, so the claim that every
failure surfaces the error string verbatim is false. -/
theorem playHand_failure_C4_counterexample :
    (playHand initialHandUI (HandFetch.transportError "network down")).2
      = ["Failed to play hand"]
  ∧ (playHand initialHandUI (HandFetch.transportError "network down")).2
      ≠ ["network down"] := by
  constructor
  · rfl
  · decide

/-- C4 amended: on every playHand failure exactly one alert is raised
and no partial UI state is committed (the welcome and game-content
display state and the committed rendering are unchanged from before
the call); the alert for a service error is the error string prefixed
with "Error playing hand: ", while the alert for a transport error is
the fixed string "Failed to play hand" (the underlying error is not
surfaced). -/
theorem playHand_failure_C4_amended (pre : HandUI) (msg err : String) (p : HandPayload) :
    (playHand pre (HandFetch.transportError msg)).2 = ["Failed to play hand"]
  ∧ (playHand pre (HandFetch.transportError msg)).1.welcomeDisplay = pre.welcomeDisplay
  ∧ (playHand pre (HandFetch.transportError msg)).1.gameContentDisplay = pre.gameContentDisplay
  ∧ (playHand pre (HandFetch.transportError msg)).1.rendered = pre.rendered
  ∧ (playHand pre (HandFetch.response false err p)).2 = ["Error playing hand: " ++ err]
  ∧ (playHand pre (HandFetch.response false err p)).1.welcomeDisplay = pre.welcomeDisplay
  ∧ (playHand pre (HandFetch.response false err p)).1.gameContentDisplay = pre.gameContentDisplay
  ∧ (playHand pre (HandFetch.response false err p)).1.rendered = pre.rendered := by
  refine ⟨rfl, rfl, rfl, rfl, rfl, rfl, rfl, rfl⟩

/-- Per-agent tournament statistics as consumed by
displayTournamentResults. -/
structure TournamentStats where
  agent : String
  hands : Nat
  wins : Nat
  losses : Nat
  pushes : Nat
deriving Repr

/-- The results object of a successful match response: one stats record
per agent slot A and B. -/
structure TournamentResults where
  A : TournamentStats
  B : TournamentStats
deriving Repr

/-- The possible outcomes of the awaited fetch plus JSON parse inside
runTournament. -/
inductive TournamentFetch where
  | transportError (msg : String)
  | response (success : Bool) (error : String) (results : TournamentResults)
deriving Repr

/-- The UI state runTournament touches: the run button disabled flag
and the display styles of the tournament loading indicator, welcome
message and results area, plus the committed results rendering. -/
structure TournamentUI where
  btnDisabled : Bool
  loadingDisplay : String
  welcomeDisplay : String
  resultsDisplay : String
  rendered : Option TournamentResults
deriving Repr

/-- The JavaScript expression parseInt(input) || 1000 of runTournament
(script.js line 287): the parseInt result is modelled as an Option Int
with none for NaN (absent or non-numeric input); the || operator
replaces the falsy values NaN and 0 by the default. -/
def tournamentNumHands (parsed : Option Int) : Int :=
  match parsed with
  | none => 1000
  | some n => if n = 0 then 1000 else n

/-- The state just after runTournament runs its prologue (script.js
lines 294-295). -/
def runTournamentPending (pre : TournamentUI) : TournamentUI :=
  { pre with btnDisabled := true, loadingDisplay := "block" }

/-- The rest of runTournament from the fetch outcome on (script.js
lines 297-325), analogous to playHandSettle. -/
def runTournamentSettle (st : TournamentUI) (result : TournamentFetch) :
    TournamentUI × List String :=
  let step :=
    match result with
    | TournamentFetch.response true _ results =>
        ({ st with rendered := some results,
                   welcomeDisplay := "none",
                   resultsDisplay := "block" }, ([] : List String))
    | TournamentFetch.response false err _ =>
        (st, ["Error running tournament: " ++ err])
    | TournamentFetch.transportError _ =>
        (st, ["Failed to run tournament"])
  ({ step.1 with btnDisabled := false, loadingDisplay := "none" }, step.2)

/-- The whole runTournament control flow: from the parseInt result of
the hands input, the pre-state and the fetch outcome, compute the
num_hands value sent in the request body together with the post-state
and the alerts raised. -/
def runTournament (parsedHands : Option Int) (pre : TournamentUI)
    (result : TournamentFetch) : Int × TournamentUI × List String :=
  let (post, alerts) := runTournamentSettle (runTournamentPending pre) result
  (tournamentNumHands parsedHands, post, alerts)

/-- C5: for both playHand and runTournament, the triggering button is
disabled while the request is pending and is re-enabled on every
completion path — success, service error, or transport error — so no
fetch outcome leaves the button disabled after the call. -/
theorem inflight_reenable_C5 (pre : HandUI) (r : HandFetch)
    (preT : TournamentUI) (ph : Option Int) (rT : TournamentFetch) :
    (playHandPending pre).btnDisabled = true
  ∧ (playHand pre r).1.btnDisabled = false
  ∧ (runTournamentPending preT).btnDisabled = true
  ∧ (runTournament ph preT rT).2.1.btnDisabled = false := by
  refine ⟨rfl, ?_, rfl, ?_⟩
  · cases r with
    | transportError msg => rfl
    | response success err p => cases success <;> rfl
  · cases rT with
    | transportError msg => rfl
    | response success err res => cases success <;> rfl

/-- C6 counterexample: the numeric input 0 is not forwarded as-is; the
|| operator treats 0 as falsy, so the request carries 1000 instead of
0, contradicting the claim that any numeric value n is forwarded with
num_hands equal to n. -/
theorem numHands_C6_counterexample :
    tournamentNumHands (some 0) = 1000 ∧ tournamentNumHands (some 0) ≠ 0 := by
  constructor
  · rfl
  · decide

/-- C6 amended: numHands defaults to 1000 when the input is absent or
non-numeric (parseInt gives NaN) and also when the input parses to 0,
which JavaScript || treats as falsy; every nonzero numeric value,
including negative and extreme values, is forwarded as-is as the
num_hands field of the request. -/
theorem numHands_C6_amended (n : Int) (h : n ≠ 0) (pre : TournamentUI)
    (r : TournamentFetch) :
    tournamentNumHands none = 1000
  ∧ tournamentNumHands (some 0) = 1000
  ∧ tournamentNumHands (some n) = n
  ∧ (runTournament (some n) pre r).1 = n := by
  refine ⟨rfl, rfl, ?_, ?_⟩
  · simp [tournamentNumHands, h]
  · simp [runTournament, tournamentNumHands, h]

/-- Witness for C6 amended at the nonzero numeric input -5. -/
theorem numHands_C6_witness :
    tournamentNumHands (some (-5)) = -5 :=
  (numHands_C6_amended (-5) (by decide)
    { btnDisabled := false, loadingDisplay := "none", welcomeDisplay := "block",
      resultsDisplay := "none", rendered := none }
    (TournamentFetch.transportError "x")).2.2.1

/-- An agent descriptor as returned by the agents endpoint. -/
structure Agent where
  id : String
  name : String
  description : String
deriving DecidableEq, Repr

/-- An agent card in the selector, reduced to the fields the claims
are about: which agent it was rendered from and whether it carries the
selected class. -/
structure AgentCard where
  agentId : String
  selected : Bool
deriving DecidableEq, Repr

/-- The card rendering of loadAgents (script.js lines 32-41): one card
per agent in catalog order, with the selected class present exactly
when the agent id is "EV". -/
def loadAgentsCards (agents : List Agent) : List AgentCard :=
  agents.map (fun a => { agentId := a.id, selected := decide (a.id = "EV") })

/-- The forEach of selectAgent (script.js lines 50-52): the selected
class of every card is toggled to the fixed positional condition
(index 0 and agentId "EV") or (index 1 and agentId "NAIVE"); the first
argument is the index of the card at the head of the list. -/
def markSelected (agentId : String) : Nat → List AgentCard → List AgentCard
  | _, [] => []
  | i, c :: cs =>
      { c with selected :=
          decide ((i = 0 ∧ agentId = "EV") ∨ (i = 1 ∧ agentId = "NAIVE")) }
        :: markSelected agentId (i + 1) cs

/-- The session state the selector mutates: the selectedAgent global
plus the rendered cards. -/
structure AgentUI where
  selectedAgent : String
  cards : List AgentCard
deriving DecidableEq, Repr

/-- selectAgent (script.js lines 48-53): overwrite the selectedAgent
global with the passed id and re-toggle every card by position. -/
def selectAgent (agentId : String) (st : AgentUI) : AgentUI :=
  { selectedAgent := agentId, cards := markSelected agentId 0 st.cards }

theorem markSelected_countP_zero (agentId : String) (i : Nat) (cs : List AgentCard)
    (h : ∀ j, i ≤ j → ¬ ((j = 0 ∧ agentId = "EV") ∨ (j = 1 ∧ agentId = "NAIVE"))) :
    (markSelected agentId i cs).countP (fun c => c.selected) = 0 := by
  induction cs generalizing i with
  | nil => rfl
  | cons c cs ih =>
      rw [markSelected, List.countP_cons]
      have hhead : ¬ ((i = 0 ∧ agentId = "EV") ∨ (i = 1 ∧ agentId = "NAIVE")) :=
        h i (Nat.le_refl i)
      have htail : ∀ j, i + 1 ≤ j →
          ¬ ((j = 0 ∧ agentId = "EV") ∨ (j = 1 ∧ agentId = "NAIVE")) := by
        intro j hj
        exact h j (Nat.le_of_succ_le hj)
      simp [ih (i + 1) htail, hhead]

/-- C7 counterexample: with a catalog holding the single agent "X",
selecting "X" marks no card selected at all (the toggle condition is
hard-coded to positions for the ids "EV" and "NAIVE"), so the claim
that after any selection exactly one card — the one whose id was
passed — is selected is false. -/
theorem agent_selection_C7_counterexample :
    ((selectAgent "X"
        { selectedAgent := "EV",
          cards := loadAgentsCards [{ id := "X", name := "x", description := "d" }] }).cards.countP
      (fun c => c.selected)) = 0 := by
  decide

/-- C7 amended: selection overwrites the selectedAgent state wholesale
with the passed id, and at startup loadAgents marks selected exactly
the cards whose agent id is "EV"; but selectAgent toggles cards by
fixed position, not by id: for an agentId other than "EV" and "NAIVE"
no card is selected, for "EV" exactly the first card is selected
(when a card exists), and for "NAIVE" exactly the second card is
selected (when at least two exist), regardless of the ids the cards
were rendered from. -/
theorem agent_selection_C7_amended (agents : List Agent) (st : AgentUI)
    (aid : String) (c c2 : AgentCard) (cs : List AgentCard)
    (hEV : aid ≠ "EV") (hNV : aid ≠ "NAIVE") :
    (selectAgent aid st).selectedAgent = aid
  ∧ (loadAgentsCards agents).countP (fun c => c.selected)
      = agents.countP (fun a => decide (a.id = "EV"))
  ∧ (selectAgent aid st).cards.countP (fun c => c.selected) = 0
  ∧ (selectAgent "EV" { st with cards := c :: cs }).cards.countP
      (fun c => c.selected) = 1
  ∧ (selectAgent "NAIVE" { st with cards := c :: c2 :: cs }).cards.countP
      (fun c => c.selected) = 1 := by
  refine ⟨rfl, ?_, ?_, ?_, ?_⟩
  · induction agents with
    | nil => rfl
    | cons a args ih =>
        simp [loadAgentsCards, List.countP_cons] at ih ⊢
        omega
  · apply markSelected_countP_zero
    intro j _
    intro hcases
    rcases hcases with ⟨_, h⟩ | ⟨_, h⟩
    · exact hEV h
    · exact hNV h
  · rw [selectAgent]
    rw [markSelected, List.countP_cons]
    have hrest : (markSelected "EV" 1 cs).countP (fun c => c.selected) = 0 := by
      apply markSelected_countP_zero
      intro j hj
      intro hcases
      rcases hcases with ⟨hj0, _⟩ | ⟨_, hNV2⟩
      · omega
      · exact absurd hNV2 (by decide)
    simp [hrest]
  · rw [selectAgent]
    rw [markSelected, markSelected, List.countP_cons, List.countP_cons]
    have hrest : (markSelected "NAIVE" 2 cs).countP (fun c => c.selected) = 0 := by
      apply markSelected_countP_zero
      intro j hj
      intro hcases
      rcases hcases with ⟨hj0, _⟩ | ⟨hj1, _⟩
      · omega
      · omega
    simp [hrest]

/-- Witness for C7 amended: selecting the unknown id "X" over a
one-card catalog leaves the selectedAgent replaced and no card
selected. -/
theorem agent_selection_C7_witness :
    (selectAgent "X"
      { selectedAgent := "EV",
        cards := [{ agentId := "X", selected := false }] }).cards.countP
      (fun c => c.selected) = 0 :=
  (agent_selection_C7_amended []
    { selectedAgent := "EV", cards := [{ agentId := "X", selected := false }] }
    "X" { agentId := "X", selected := false } { agentId := "X", selected := false } []
    (by decide) (by decide)).2.2.1

/-- A tab content panel: its element id and whether it carries the
active class. -/
structure TabPanel where
  id : String
  active : Bool
deriving DecidableEq, Repr

/-- A tab button: its data-tab attribute and whether it carries the
active class. -/
structure TabBtn where
  dataTab : String
  active : Bool
deriving DecidableEq, Repr

/-- The tab-related DOM state showTab touches. -/
structure TabState where
  panels : List TabPanel
  btns : List TabBtn
deriving DecidableEq, Repr

/-- The first forEach of showTab (script.js lines 67-69): remove the
active class from every tab content panel. -/
def clearPanels (ps : List TabPanel) : List TabPanel :=
  ps.map (fun p => { p with active := false })

/-- getElementById plus classList.add (script.js lines 77-81): add the
active class to the first panel whose id matches, leaving the state
unchanged when no panel matches. -/
def activateFirst (tid : String) : List TabPanel → List TabPanel
  | [] => []
  | p :: ps =>
      if p.id = tid then { p with active := true } :: ps
      else p :: activateFirst tid ps

/-- The second forEach of showTab (script.js lines 72-74): remove the
active class from every tab button. -/
def clearBtns (bs : List TabBtn) : List TabBtn :=
  bs.map (fun b => { b with active := false })

/-- event.target.classList.add (script.js line 84): add the active
class to the clicked button, identified by its position in the button
list. -/
def setBtnActive : Nat → List TabBtn → List TabBtn
  | _, [] => []
  | 0, b :: bs => { b with active := true } :: bs
  | Nat.succ n, b :: bs => b :: setBtnActive n bs

/-- showTab (script.js lines 65-85) as a function of the tab name, the
index of the clicked button (the ambient event.target) and the current
tab state: clear every panel and button, then activate the panel whose
id is the tab name with "-tab" appended and the clicked button. -/
def showTab (tabName : String) (clicked : Nat) (st : TabState) : TabState :=
  { panels := activateFirst (tabName ++ "-tab") (clearPanels st.panels),
    btns := setBtnActive clicked (clearBtns st.btns) }

theorem clearPanels_activateFirst (tid : String) (ps : List TabPanel) :
    clearPanels (activateFirst tid ps) = clearPanels ps := by
  induction ps with
  | nil => rfl
  | cons p ps ih =>
      by_cases h : p.id = tid
      · simp [activateFirst, clearPanels, h]
      · simp only [activateFirst, if_neg h]
        simpa [clearPanels] using ih

theorem clearBtns_setBtnActive (i : Nat) (bs : List TabBtn) :
    clearBtns (setBtnActive i bs) = clearBtns bs := by
  induction bs generalizing i with
  | nil => cases i <;> rfl
  | cons b bs ih =>
      cases i with
      | zero => simp [setBtnActive, clearBtns]
      | succ n => simpa [setBtnActive, clearBtns] using ih n

theorem clearPanels_clearPanels (ps : List TabPanel) :
    clearPanels (clearPanels ps) = clearPanels ps := by
  simp [clearPanels]

theorem clearBtns_clearBtns (bs : List TabBtn) :
    clearBtns (clearBtns bs) = clearBtns bs := by
  simp [clearBtns]

theorem countP_clearPanels (ps : List TabPanel) :
    (clearPanels ps).countP (fun p => p.active) = 0 := by
  induction ps with
  | nil => rfl
  | cons p ps ih =>
      rw [clearPanels, List.map_cons, List.countP_cons]
      rw [clearPanels] at ih
      simp [ih]

theorem countP_clearBtns (bs : List TabBtn) :
    (clearBtns bs).countP (fun b => b.active) = 0 := by
  induction bs with
  | nil => rfl
  | cons b bs ih =>
      rw [clearBtns, List.map_cons, List.countP_cons]
      rw [clearBtns] at ih
      simp [ih]

theorem countP_activateFirst_clear (tid : String) (ps : List TabPanel)
    (h : ∃ p ∈ ps, p.id = tid) :
    (activateFirst tid (clearPanels ps)).countP (fun p => p.active) = 1 := by
  induction ps with
  | nil => simp at h
  | cons p ps ih =>
      rw [clearPanels, List.map_cons]
      by_cases hid : p.id = tid
      · rw [activateFirst]
        simp only [hid, if_pos rfl, List.countP_cons]
        have := countP_clearPanels ps
        simp [clearPanels] at this
        simp [this]
      · rw [activateFirst]
        simp only [if_neg hid, List.countP_cons]
        have hex : ∃ q ∈ ps, q.id = tid := by
          rcases h with ⟨q, hq, hqid⟩
          rcases List.mem_cons.mp hq with hq | hq
          · exact absurd (hq ▸ hqid) hid
          · exact ⟨q, hq, hqid⟩
        have := ih hex
        rw [clearPanels] at this
        simp [this]

theorem countP_setBtnActive_clear (i : Nat) (bs : List TabBtn)
    (h : i < bs.length) :
    (setBtnActive i (clearBtns bs)).countP (fun b => b.active) = 1 := by
  induction bs generalizing i with
  | nil => simp at h
  | cons b bs ih =>
      rw [clearBtns, List.map_cons]
      cases i with
      | zero =>
          rw [setBtnActive, List.countP_cons]
          have hz := countP_clearBtns bs
          rw [clearBtns] at hz
          simp [hz]
      | succ n =>
          rw [setBtnActive, List.countP_cons]
          have hn : n < bs.length := Nat.lt_of_succ_lt_succ h
          have := ih n hn
          rw [clearBtns] at this
          simp [this]

theorem activeId_activateFirst_clear (tid : String) (ps : List TabPanel) :
    ∀ p ∈ activateFirst tid (clearPanels ps), p.active = true → p.id = tid := by
  induction ps with
  | nil => intro p hp; simp [clearPanels, activateFirst] at hp
  | cons q ps ih =>
      intro p hp hact
      rw [clearPanels, List.map_cons] at hp
      by_cases hid : q.id = tid
      · rw [activateFirst] at hp
        simp only [hid, if_pos rfl] at hp
        rcases List.mem_cons.mp hp with hp | hp
        · rw [hp]
        · exfalso
          have : p.active = false := by
            have hmem : p ∈ clearPanels ps := by rw [clearPanels]; exact hp
            rcases List.mem_map.mp hmem with ⟨r, _, hr⟩
            rw [← hr]
          rw [this] at hact; exact Bool.false_ne_true hact
      · rw [activateFirst] at hp
        simp only [if_neg hid] at hp
        rcases List.mem_cons.mp hp with hp | hp
        · exfalso
          rw [hp] at hact
          exact Bool.false_ne_true hact
        · exact ih p hp hact

/-- C8: when the DOM holds a panel whose id is the tab name with "-tab"
appended and the clicked button index is in range, switching tabs twice
in a row gives the same state as switching once (so re-invoking
switch-to-tab on the already-active tab changes nothing), and after the
switch exactly one panel carries the active class — a panel with the
switched-to id — and exactly one button carries it. -/
theorem tab_switching_C8 (st : TabState) (x : String) (c : Nat)
    (hp : ∃ p ∈ st.panels, p.id = x ++ "-tab") (hb : c < st.btns.length) :
    showTab x c (showTab x c st) = showTab x c st
  ∧ (showTab x c st).panels.countP (fun p => p.active) = 1
  ∧ (∀ p ∈ (showTab x c st).panels, p.active = true → p.id = x ++ "-tab")
  ∧ (showTab x c st).btns.countP (fun b => b.active) = 1 := by
  refine ⟨?_, ?_, ?_, ?_⟩
  · rw [showTab, showTab]
    simp only [clearPanels_activateFirst, clearBtns_setBtnActive,
      clearPanels_clearPanels, clearBtns_clearBtns]
  · exact countP_activateFirst_clear (x ++ "-tab") st.panels hp
  · exact activeId_activateFirst_clear (x ++ "-tab") st.panels
  · exact countP_setBtnActive_clear c st.btns hb

/-- Witness for C8 on a concrete two-tab DOM, switching to the game
tab via the first button. -/
theorem tab_switching_C8_witness :
    showTab "game" 0
        (showTab "game" 0
          { panels := [{ id := "game-tab", active := true },
                       { id := "tournament-tab", active := false }],
            btns := [{ dataTab := "game", active := true },
                     { dataTab := "tournament", active := false }] })
      = showTab "game" 0
          { panels := [{ id := "game-tab", active := true },
                       { id := "tournament-tab", active := false }],
            btns := [{ dataTab := "game", active := true },
                     { dataTab := "tournament", active := false }] } :=
  (tab_switching_C8
    { panels := [{ id := "game-tab", active := true },
                 { id := "tournament-tab", active := false }],
      btns := [{ dataTab := "game", active := true },
               { dataTab := "tournament", active := false }] }
    "game" 0
    ⟨{ id := "game-tab", active := true }, by decide, by decide⟩
    (by decide)).1

end BlackjackUI
